import Mathlib

/-!
Verification development for the NYC Public Restroom map application.

The two source files (src/restroom-map.js and the unnamed variant
src/unnamed/part_000) contain the same computational core:

  * applyFilters           - the multi-facet filter engine,
  * generateCoverageHeatmap - the coverage grid sampler (100 x 100 grid over
    fixed NYC bounds, brute-force nearest-facility scan),
  * calculateFastDistance  - the fast planar distance approximation,
  * updateStatistics       - the statistics aggregator (unnamed variant only),
  * toggleHeatmap          - the lazy compute-once cache for the grid.

JavaScript numbers are modelled by the type JSNum: an exact rational
together with the special values NaN, Infinity and -Infinity, with the
IEEE-style propagation rules of the JS arithmetic operators spelled out
case by case.  The two irrational-valued library calls the core makes,
Math.sqrt and Math.pow(x, 0.6), are modelled as the two fields of a
FloatModel parameter; the theorems that need facts about them take those
facts as hypotheses (sign preservation, unit-interval preservation,
pow(1, 0.6) = 1), all of which hold of the real IEEE functions, and the
witnesses instantiate the model with the identity function, which also
satisfies them.

JavaScript strings are modelled as List Char; String.prototype.includes
is substring containment, String.prototype.toLowerCase is a character-wise
Char.toLower map.  A GeoJSON record's property bag may miss a field, so
every property is an Option; geometry coordinates are an
Option (JSNum x JSNum) in GeoJSON [longitude, latitude] order, with none
standing for a null or absent coordinate pair.
-/

/-- JavaScript number: NaN, the two infinities, or an exact finite value
(rationals stand in for IEEE doubles; every comparison, sign and range fact
proved below is exact-arithmetic-stable, none depends on rounding). -/
inductive JSNum where
  | nan : JSNum
  | inf : JSNum
  | ninf : JSNum
  | fin (q : ℚ) : JSNum
deriving DecidableEq

/-- JS unary minus. -/
def jneg : JSNum → JSNum
  | JSNum.nan => JSNum.nan
  | JSNum.inf => JSNum.ninf
  | JSNum.ninf => JSNum.inf
  | JSNum.fin q => JSNum.fin (-q)

/-- JS addition: NaN propagates, Infinity + (-Infinity) is NaN. -/
def jadd : JSNum → JSNum → JSNum
  | JSNum.nan, _ => JSNum.nan
  | _, JSNum.nan => JSNum.nan
  | JSNum.inf, JSNum.ninf => JSNum.nan
  | JSNum.ninf, JSNum.inf => JSNum.nan
  | JSNum.inf, _ => JSNum.inf
  | _, JSNum.inf => JSNum.inf
  | JSNum.ninf, _ => JSNum.ninf
  | _, JSNum.ninf => JSNum.ninf
  | JSNum.fin a, JSNum.fin b => JSNum.fin (a + b)

/-- JS subtraction, a - b = a + (-b). -/
def jsub (a b : JSNum) : JSNum := jadd a (jneg b)

/-- JS multiplication: NaN propagates, Infinity * 0 is NaN, otherwise signs
combine. -/
def jmul : JSNum → JSNum → JSNum
  | JSNum.nan, _ => JSNum.nan
  | _, JSNum.nan => JSNum.nan
  | JSNum.inf, JSNum.inf => JSNum.inf
  | JSNum.inf, JSNum.ninf => JSNum.ninf
  | JSNum.ninf, JSNum.inf => JSNum.ninf
  | JSNum.ninf, JSNum.ninf => JSNum.inf
  | JSNum.inf, JSNum.fin b =>
      if 0 < b then JSNum.inf else if b < 0 then JSNum.ninf else JSNum.nan
  | JSNum.fin a, JSNum.inf =>
      if 0 < a then JSNum.inf else if a < 0 then JSNum.ninf else JSNum.nan
  | JSNum.ninf, JSNum.fin b =>
      if 0 < b then JSNum.ninf else if b < 0 then JSNum.inf else JSNum.nan
  | JSNum.fin a, JSNum.ninf =>
      if 0 < a then JSNum.ninf else if a < 0 then JSNum.inf else JSNum.nan
  | JSNum.fin a, JSNum.fin b => JSNum.fin (a * b)

/-- JS division: NaN propagates, Infinity / Infinity is NaN, finite / 0
follows the sign of the numerator (0 / 0 is NaN), finite / Infinity is 0. -/
def jdiv : JSNum → JSNum → JSNum
  | JSNum.nan, _ => JSNum.nan
  | _, JSNum.nan => JSNum.nan
  | JSNum.inf, JSNum.inf => JSNum.nan
  | JSNum.inf, JSNum.ninf => JSNum.nan
  | JSNum.ninf, JSNum.inf => JSNum.nan
  | JSNum.ninf, JSNum.ninf => JSNum.nan
  | JSNum.inf, JSNum.fin b => if 0 ≤ b then JSNum.inf else JSNum.ninf
  | JSNum.ninf, JSNum.fin b => if 0 ≤ b then JSNum.ninf else JSNum.inf
  | JSNum.fin _, JSNum.inf => JSNum.fin 0
  | JSNum.fin _, JSNum.ninf => JSNum.fin 0
  | JSNum.fin a, JSNum.fin b =>
      if b = 0 then
        if 0 < a then JSNum.inf else if a < 0 then JSNum.ninf else JSNum.nan
      else JSNum.fin (a / b)

/-- JS strict less-than: any comparison with NaN is false. -/
def jlt : JSNum → JSNum → Bool
  | JSNum.nan, _ => false
  | _, JSNum.nan => false
  | JSNum.ninf, JSNum.ninf => false
  | JSNum.ninf, _ => true
  | _, JSNum.ninf => false
  | JSNum.inf, _ => false
  | _, JSNum.inf => true
  | JSNum.fin a, JSNum.fin b => decide (a < b)

/-- JS Math.min of two arguments: NaN if either argument is NaN, otherwise
the smaller argument. -/
def jmin (a b : JSNum) : JSNum :=
  match a, b with
  | JSNum.nan, _ => JSNum.nan
  | _, JSNum.nan => JSNum.nan
  | x, y => if jlt y x then y else x

/-- The two irrational-valued JS library functions used by the core, as an
abstract parameter: sqrt models Math.sqrt, pow06 models Math.pow(x, 0.6). -/
structure FloatModel where
  sqrt : JSNum → JSNum
  pow06 : JSNum → JSNum

/-- Concrete model used by the evaluating witnesses: both library functions
are the identity, which satisfies every hypothesis the theorems place on a
FloatModel. -/
def idFloatModel : FloatModel := ⟨fun x => x, fun x => x⟩

/-- Contract of Math.sqrt used by the proofs: the square root of a
nonnegative finite number is a nonnegative finite number. -/
def SqrtSpec (m : FloatModel) : Prop :=
  ∀ q : ℚ, 0 ≤ q → ∃ r : ℚ, 0 ≤ r ∧ m.sqrt (JSNum.fin q) = JSNum.fin r

/-- Contract of Math.pow(x, 0.6) used by the proofs: it maps the unit
interval into the unit interval. -/
def PowUnitSpec (m : FloatModel) : Prop :=
  ∀ q : ℚ, 0 ≤ q → q ≤ 1 → ∃ r : ℚ, 0 ≤ r ∧ r ≤ 1 ∧ m.pow06 (JSNum.fin q) = JSNum.fin r

/-- Contract of Math.pow(x, 0.6) at 1: Math.pow(1, 0.6) = 1 (exact in IEEE
arithmetic). -/
def PowOneSpec (m : FloatModel) : Prop := m.pow06 (JSNum.fin 1) = JSNum.fin 1

/-- One GeoJSON facility feature, with the properties the core reads.
Every property may be absent (undefined), hence the Options; coordinates
are in GeoJSON [longitude, latitude] order, none standing for a null or
missing coordinate pair. -/
structure FacilityRecord where
  facility_name : Option (List Char)
  operator : Option (List Char)
  location_type : Option (List Char)
  status : Option (List Char)
  accessibility : Option (List Char)
  coordinates : Option (JSNum × JSNum)
deriving DecidableEq

/-- The loaded feature collection (the global allRestroomData once the
fetch has resolved). -/
structure RestroomData where
  features : List FacilityRecord
deriving DecidableEq

/-- The mutable currentFilters object: a search string (lower-cased by the
UI before it is stored) and the three facet values, each either the
sentinel string all or an exact value. -/
structure QueryState where
  search : List Char
  status : List Char
  accessibility : List Char
  locationType : List Char
deriving DecidableEq

/-- One heatmap grid point, pushed by the source as the triple
[lng, lat, intensity]. -/
structure Cell where
  lng : ℚ
  lat : ℚ
  intensity : JSNum
deriving DecidableEq

/-- A north/south/east/west bounding box (the nycBounds object). -/
structure Bounds where
  north : ℚ
  south : ℚ
  east : ℚ
  west : ℚ
deriving DecidableEq

/-- Outcome of a JS call that can throw: either a thrown exception or a
returned value. -/
inductive JSOutcome (α : Type) where
  | thrown : JSOutcome α
  | value (a : α) : JSOutcome α
deriving DecidableEq

/-- The application's global mutable state: the facility store, the filter
state, the heatmap visibility flag, the cached heatmap points, the
disabled state of the toggle button, and a ghost counter of how many times
the grid scan has actually run (incremented exactly when
generateCoverageHeatmap executes its loop, i.e. returns non-undefined). -/
structure AppState where
  allRestroomData : Option RestroomData
  currentFilters : QueryState
  isHeatmapVisible : Bool
  heatmapData : Option (List Cell)
  buttonDisabled : Bool
  computeCount : ℕ
deriving DecidableEq

/-- The sentinel facet value meaning no constraint. -/
def allSentinel : List Char := "all".toList

/-- The searchable text of a record:
[props.facility_name, props.operator, props.location_type].join(' '),
where Array.prototype.join turns an undefined entry into the empty
string. -/
def searchableText (r : FacilityRecord) : List Char :=
  (r.facility_name.getD []) ++ [' '] ++ (r.operator.getD []) ++ [' '] ++
    (r.location_type.getD [])

/-- The per-record predicate of applyFilters, with the source's
early-return-false structure: the search guard tests whether the
lower-cased searchable text contains the search string, and each facet
guard rejects when the facet is not the sentinel and differs from the
record's value (a missing record value never equals a facet value). -/
def featureMatches (q : QueryState) (r : FacilityRecord) : Bool :=
  if q.search ≠ [] ∧ ¬ (q.search <:+: ((searchableText r).map Char.toLower)) then false
  else if q.status ≠ allSentinel ∧ r.status ≠ some q.status then false
  else if q.accessibility ≠ allSentinel ∧ r.accessibility ≠ some q.accessibility then false
  else if q.locationType ≠ allSentinel ∧ r.location_type ≠ some q.locationType then false
  else true

/-- applyFilters: returns undefined (none) without touching anything when
the store is still null, otherwise the stable Array.prototype.filter of
the store's features under featureMatches — the value pushed to the
renderer.  The source function writes none of the application globals. -/
def applyFilters (s : AppState) : Option (List FacilityRecord) :=
  match s.allRestroomData with
  | none => none
  | some data => some (data.features.filter (featureMatches s.currentFilters))

/-- The four counters written by updateStatistics. -/
structure StatsOut where
  totalVisible : ℕ
  operationalCount : ℕ
  accessibleCount : ℕ
  parkCount : ℕ
deriving DecidableEq

/-- updateStatistics (unnamed variant): length of the list, plus the
lengths of the three exact-equality filters. -/
def updateStatistics (data : List FacilityRecord) : StatsOut :=
  { totalVisible := data.length
    operationalCount :=
      (data.filter (fun f => decide (f.status = some ("Operational".toList)))).length
    accessibleCount :=
      (data.filter (fun f => decide (f.accessibility = some ("Fully Accessible".toList)))).length
    parkCount :=
      (data.filter (fun f => decide (f.location_type = some ("Park".toList)))).length }

/-- calculateFastDistance(lat1, lng1, lat2, lng2): planar approximation,
dLat = (lat2-lat1)*111000, dLng = (lng2-lng1)*85000,
Math.sqrt(dLat*dLat + dLng*dLng). -/
def calculateFastDistance (m : FloatModel) (lat1 lng1 lat2 lng2 : JSNum) : JSNum :=
  let dLat := jmul (jsub lat2 lat1) (JSNum.fin 111000)
  let dLng := jmul (jsub lng2 lng1) (JSNum.fin 85000)
  m.sqrt (jadd (jmul dLat dLat) (jmul dLng dLng))

/-- The inner loop of the grid sampler: minDistance starts at Infinity and
is replaced whenever a strictly smaller distance is found (a NaN or
Infinity distance never wins a strict comparison).  Each coordinate pair c
is destructured [rLng, rLat] = c and passed as
calculateFastDistance(lat, lng, rLat, rLng). -/
def minDistanceScan (m : FloatModel) (lat lng : ℚ) (coords : List (JSNum × JSNum)) : JSNum :=
  coords.foldl
    (fun minDistance c =>
      let d := calculateFastDistance m (JSNum.fin lat) (JSNum.fin lng) c.2 c.1
      if jlt d minDistance then d else minDistance)
    JSNum.inf

/-- The nested i/j loops of generateCoverageHeatmap: latStep and lngStep
are the box extents divided by the grid size, cell (i, j) sits at
lat = south + i*latStep, lng = west + j*lngStep, its intensity is
Math.pow(Math.min(minDistance / 1000, 1), 0.6), and cells are pushed in
i-major, j-minor order as [lng, lat, intensity].  (The rational division
by a zero grid size differs from the JS Infinity step, but with a zero
grid size neither loop body runs, so no cell observes it.) -/
def coverageCells (m : FloatModel) (b : Bounds) (gridSize : ℕ)
    (restroomCoords : List (JSNum × JSNum)) : List Cell :=
  let latStep : ℚ := (b.north - b.south) / gridSize
  let lngStep : ℚ := (b.east - b.west) / gridSize
  (List.range gridSize).flatMap fun (i : ℕ) =>
    (List.range gridSize).map fun (j : ℕ) =>
      let lat : ℚ := b.south + (i : ℚ) * latStep
      let lng : ℚ := b.west + (j : ℚ) * lngStep
      let minDistance := minDistanceScan m lat lng restroomCoords
      let intensity := m.pow06 (jmin (jdiv minDistance (JSNum.fin 1000)) (JSNum.fin 1))
      ⟨lng, lat, intensity⟩

/-- The hard-coded nycBounds object of generateCoverageHeatmap. -/
def nycBounds : Bounds :=
  { north := 40.925, south := 40.470, east := -73.680, west := -74.280 }

/-- The hard-coded grid size of generateCoverageHeatmap. -/
def gridSize : ℕ := 100

/-- generateCoverageHeatmap: returns undefined (none) when the store is
still null; otherwise it maps every feature to its geometry coordinates
and runs the grid loops.  If any record's coordinate pair is null or
missing, the first loop iteration's destructuring
[rLng, rLat] = coords throws a TypeError (modelled as thrown); otherwise
the full cell list is produced.  The function reads only the facility
store, never the filter state. -/
def generateCoverageHeatmap (m : FloatModel) (s : AppState) : Option (JSOutcome (List Cell)) :=
  match s.allRestroomData with
  | none => none
  | some data =>
      let restroomCoords := data.features.map (fun r => r.coordinates)
      if 0 < gridSize ∧ none ∈ restroomCoords then some JSOutcome.thrown
      else some (JSOutcome.value (coverageCells m nycBounds gridSize (restroomCoords.filterMap id)))

/-- toggleHeatmap: a click on a disabled button does nothing; when the
heatmap is visible the layer is removed and the flag cleared (the cache is
untouched); when it is not visible and a cached grid exists the cache is
redisplayed; otherwise the button is disabled, generateCoverageHeatmap
runs, its result (possibly undefined) is assigned to heatmapData, the
layer is added, the flag is set and the button re-enabled — except that a
thrown TypeError skips the assignment and everything after it, leaving the
button disabled.  The ghost computeCount increments exactly when the grid
scan ran (the generate call returned non-undefined). -/
def toggleHeatmap (m : FloatModel) (s : AppState) : AppState :=
  if s.buttonDisabled then s
  else if s.isHeatmapVisible then { s with isHeatmapVisible := false }
  else
    match s.heatmapData with
    | some _ => { s with isHeatmapVisible := true }
    | none =>
        match generateCoverageHeatmap m s with
        | none => { s with isHeatmapVisible := true }
        | some JSOutcome.thrown =>
            { s with buttonDisabled := true, computeCount := s.computeCount + 1 }
        | some (JSOutcome.value g) =>
            { s with heatmapData := some g, isHeatmapVisible := true,
                     computeCount := s.computeCount + 1 }

/-- Spec-side search haystack, written from the claim's words: the
lower-cased concatenation of name, operator and locationType, missing
fields treated as empty strings, joined by single spaces. -/
def specSearchHaystack (r : FacilityRecord) : List Char :=
  ((r.facility_name.getD []) ++ [' '] ++ (r.operator.getD []) ++ [' '] ++
    (r.location_type.getD [])).map Char.toLower

/-- Spec-side filter predicate, written from the claim's words: the
conjunction of the four facet predicates (search substring when non-empty;
each categorical facet passes on the sentinel or on exact equality). -/
def FilterSpec (q : QueryState) (r : FacilityRecord) : Prop :=
  (q.search = [] ∨ q.search <:+: specSearchHaystack r) ∧
  (q.status = allSentinel ∨ r.status = some q.status) ∧
  (q.accessibility = allSentinel ∨ r.accessibility = some q.accessibility) ∧
  (q.locationType = allSentinel ∨ r.location_type = some q.locationType)

instance instDecFilterSpec (q : QueryState) (r : FacilityRecord) : Decidable (FilterSpec q r) := by
  unfold FilterSpec
  infer_instance

/-- The code's early-return predicate agrees with the spec-side conjunction
of four predicates. -/
theorem featureMatches_iff (q : QueryState) (r : FacilityRecord) :
    featureMatches q r = true ↔ FilterSpec q r := by
  unfold featureMatches FilterSpec specSearchHaystack searchableText
  split_ifs with h1 h2 h3 h4 <;>
    simp only [Bool.false_eq_true, false_iff, true_iff] <;>
    tauto

/-- One facet of the query is tightened: a categorical facet moves from the
sentinel to a specific value, or the search string is replaced by a string
at least as long that contains the old one as a substring. -/
def Tightens (q q2 : QueryState) : Prop :=
  (∃ v, q.status = allSentinel ∧ q2 = { q with status := v }) ∨
  (∃ v, q.accessibility = allSentinel ∧ q2 = { q with accessibility := v }) ∨
  (∃ v, q.locationType = allSentinel ∧ q2 = { q with locationType := v }) ∨
  (∃ t, q.search <:+: t ∧ q.search.length ≤ t.length ∧ q2 = { q with search := t })

/-- A record passing the tightened query passes the original query. -/
theorem tightens_pointwise (q q2 : QueryState) (ht : Tightens q q2) (r : FacilityRecord) :
    featureMatches q2 r = true → featureMatches q r = true := by
  intro h
  rw [featureMatches_iff] at h ⊢
  rcases ht with ⟨v, hall, rfl⟩ | ⟨v, hall, rfl⟩ | ⟨v, hall, rfl⟩ | ⟨t, hinf, hlen, rfl⟩
  · exact ⟨h.1, Or.inl hall, h.2.2.1, h.2.2.2⟩
  · exact ⟨h.1, h.2.1, Or.inl hall, h.2.2.2⟩
  · exact ⟨h.1, h.2.1, h.2.2.1, Or.inl hall⟩
  · refine ⟨?_, h.2.1, h.2.2.1, h.2.2.2⟩
    rcases h.1 with hte | htin
    · subst hte
      exact Or.inl (List.infix_nil.mp hinf)
    · exact Or.inr (hinf.trans htin)

/-- C1: for every facility store and query state, applyFilters returns
exactly the stable filter of the input by the conjunction of the four
spec predicates (search substring over the lower-cased joined text with
missing fields as empty strings; each categorical facet passing on the
sentinel "all" or on case-sensitive exact equality), and the output is a
subsequence of the input, preserving relative order. -/
theorem c1_filter_engine (s : AppState) (data : RestroomData)
    (h : s.allRestroomData = some data) :
    applyFilters s =
      some (data.features.filter (fun r => decide (FilterSpec s.currentFilters r))) ∧
    (data.features.filter (featureMatches s.currentFilters)).Sublist data.features := by
  refine ⟨?_, List.filter_sublist data.features⟩
  have hfun : ∀ r ∈ data.features,
      featureMatches s.currentFilters r = decide (FilterSpec s.currentFilters r) := by
    intro r _
    by_cases hf : FilterSpec s.currentFilters r
    · rw [(featureMatches_iff _ _).2 hf, decide_eq_true hf]
    · cases hb : featureMatches s.currentFilters r with
      | false => rw [decide_eq_false hf]
      | true => exact absurd ((featureMatches_iff _ _).1 hb) hf
  simp only [applyFilters, h]
  rw [List.filter_congr hfun]

/-- C1 witness: the theorem applied to a concrete one-record store. -/
def demoRecord : FacilityRecord :=
  { facility_name := some ("Central Park".toList)
    operator := some ("NYC Parks".toList)
    location_type := some ("Park".toList)
    status := some ("Operational".toList)
    accessibility := some ("Fully Accessible".toList)
    coordinates := some (JSNum.fin (-7397/100), JSNum.fin (4078/100)) }

/-- A query with no constraints (all facets at the sentinel, empty search). -/
def demoQuery : QueryState :=
  { search := []
    status := "all".toList
    accessibility := "all".toList
    locationType := "all".toList }

/-- A concrete loaded application state used by the witnesses. -/
def demoState : AppState :=
  { allRestroomData := some ⟨[demoRecord]⟩
    currentFilters := demoQuery
    isHeatmapVisible := false
    heatmapData := none
    buttonDisabled := false
    computeCount := 0 }

theorem c1_filter_engine_witness :
    applyFilters demoState =
      some ([demoRecord].filter (fun r => decide (FilterSpec demoQuery r))) ∧
    ([demoRecord].filter (featureMatches demoQuery)).Sublist [demoRecord] :=
  c1_filter_engine demoState ⟨[demoRecord]⟩ rfl

/-- C4: tightening any single facet of the query (a categorical facet moved
from "all" to a specific value, or the search string replaced by a longer
string containing the old one as a substring) never increases the size of
the filtered result. -/
theorem c4_filter_monotonicity (q q2 : QueryState) (ht : Tightens q q2)
    (rs : List FacilityRecord) :
    (rs.filter (featureMatches q2)).length ≤ (rs.filter (featureMatches q)).length :=
  (List.monotone_filter_right rs (fun r => tightens_pointwise q q2 ht r)).length_le

theorem c4_filter_monotonicity_witness :
    ([demoRecord].filter
        (featureMatches { demoQuery with status := ("Operational".toList) })).length ≤
      ([demoRecord].filter (featureMatches demoQuery)).length :=
  c4_filter_monotonicity demoQuery { demoQuery with status := ("Operational".toList) }
    (Or.inl ⟨("Operational".toList), rfl, rfl⟩) [demoRecord]

/-- C7: the statistics aggregator reports the list length as total, and the
number of records whose status, accessibility and location type exactly
equal "Operational", "Fully Accessible" and "Park" respectively. -/
theorem c7_statistics (rs : List FacilityRecord) :
    (updateStatistics rs).totalVisible = rs.length ∧
    (updateStatistics rs).operationalCount =
      rs.countP (fun f => decide (f.status = some ("Operational".toList))) ∧
    (updateStatistics rs).accessibleCount =
      rs.countP (fun f => decide (f.accessibility = some ("Fully Accessible".toList))) ∧
    (updateStatistics rs).parkCount =
      rs.countP (fun f => decide (f.location_type = some ("Park".toList))) := by
  refine ⟨rfl, ?_, ?_, ?_⟩ <;>
    simp [updateStatistics, List.countP_eq_length_filter]

/-- C8: the coverage grid generator reads only the facility store, so two
states with the same store and arbitrary (possibly different) filter
settings produce identical results. -/
theorem c8_grid_filter_independent (m : FloatModel) (s1 s2 : AppState)
    (h : s1.allRestroomData = s2.allRestroomData) :
    generateCoverageHeatmap m s1 = generateCoverageHeatmap m s2 := by
  unfold generateCoverageHeatmap
  rw [h]

theorem c8_grid_filter_independent_witness :
    generateCoverageHeatmap idFloatModel demoState =
      generateCoverageHeatmap idFloatModel
        { demoState with
            currentFilters :=
              { search := ("park".toList)
                status := ("Operational".toList)
                accessibility := "all".toList
                locationType := "all".toList } } :=
  c8_grid_filter_independent idFloatModel demoState _ rfl

/-- C10: with the facility store still null, both applyFilters and
generateCoverageHeatmap return undefined immediately, producing no output
(the source bodies of both functions assign none of the application
globals, so no state changes either). -/
theorem c10_null_store_noop (m : FloatModel) (s : AppState)
    (h : s.allRestroomData = none) :
    applyFilters s = none ∧ generateCoverageHeatmap m s = none := by
  constructor <;> simp [applyFilters, generateCoverageHeatmap, h]

theorem c10_null_store_noop_witness :
    applyFilters { demoState with allRestroomData := none } = none ∧
    generateCoverageHeatmap idFloatModel { demoState with allRestroomData := none } = none :=
  c10_null_store_noop idFloatModel { demoState with allRestroomData := none } rfl

/-- The double loop of coverageCells written as an explicit flatMap of maps
(pure zeta-unfolding of the definition). -/
theorem coverageCells_eq (m : FloatModel) (b : Bounds) (N : ℕ)
    (coords : List (JSNum × JSNum)) :
    coverageCells m b N coords =
      (List.range N).flatMap fun (i : ℕ) => (List.range N).map fun (j : ℕ) =>
        Cell.mk (b.west + (j : ℚ) * ((b.east - b.west) / (N : ℚ)))
          (b.south + (i : ℚ) * ((b.north - b.south) / (N : ℚ)))
          (m.pow06 (jmin (jdiv (minDistanceScan m
              (b.south + (i : ℚ) * ((b.north - b.south) / (N : ℚ)))
              (b.west + (j : ℚ) * ((b.east - b.west) / (N : ℚ))) coords)
            (JSNum.fin 1000)) (JSNum.fin 1))) := by
  unfold coverageCells
  rfl

/-- Length of an i-major, j-minor double loop. -/
theorem flatMapGridLength {α : Type} (f : ℕ → ℕ → α) (M N : ℕ) :
    ((List.range M).flatMap (fun a => (List.range N).map (f a))).length = M * N := by
  induction M with
  | zero => simp
  | succ k ih =>
      rw [List.range_succ, List.flatMap_append, List.length_append, ih]
      simp [Nat.succ_mul]

/-- Element (i, j) of an i-major, j-minor double loop sits at flat index
i*N + j. -/
theorem flatMapGridGet {α : Type} (f : ℕ → ℕ → α) (M N i j : ℕ)
    (hi : i < M) (hj : j < N) :
    ((List.range M).flatMap (fun a => (List.range N).map (f a)))[i * N + j]? =
      some (f i j) := by
  induction M with
  | zero => exact absurd hi (Nat.not_lt_zero i)
  | succ k ih =>
      rw [List.range_succ, List.flatMap_append, List.getElem?_append,
        flatMapGridLength f k N]
      by_cases hik : i < k
      · have hlt : i * N + j < k * N := by
          calc i * N + j < i * N + N := by omega
            _ = (i + 1) * N := by ring
            _ ≤ k * N := Nat.mul_le_mul_right N hik
        rw [if_pos hlt]
        exact ih hik
      · have hik2 : i = k := by omega
        subst hik2
        rw [if_neg (by omega), Nat.add_sub_cancel_left]
        simp only [List.flatMap_cons, List.flatMap_nil, List.append_nil]
        rw [List.getElem?_map, List.getElem?_range hj]
        rfl

/-- C3: for every bounds box and grid size N the sampler produces exactly
N*N cells in i-major, j-minor order, and the cell at flat index i*N + j
sits at latitude south + i*(north-south)/N and longitude
west + j*(east-west)/N. -/
theorem c3_grid_layout (m : FloatModel) (b : Bounds) (N : ℕ)
    (coords : List (JSNum × JSNum)) :
    (coverageCells m b N coords).length = N * N ∧
    ∀ i j : ℕ, i < N → j < N →
      (coverageCells m b N coords)[i * N + j]?.map (fun c => (c.lat, c.lng)) =
        some (b.south + (i : ℚ) * ((b.north - b.south) / (N : ℚ)),
              b.west + (j : ℚ) * ((b.east - b.west) / (N : ℚ))) := by
  constructor
  · rw [coverageCells_eq]
    exact flatMapGridLength _ N N
  · intro i j hi hj
    rw [coverageCells_eq, flatMapGridGet _ N N i j hi hj]
    rfl

theorem c3_grid_layout_witness :
    (coverageCells idFloatModel nycBounds 2 []).length = 2 * 2 ∧
    (coverageCells idFloatModel nycBounds 2 [])[1 * 2 + 0]?.map
        (fun c => (c.lat, c.lng)) =
      some (nycBounds.south + ((1 : ℕ) : ℚ) * ((nycBounds.north - nycBounds.south) / ((2 : ℕ) : ℚ)),
            nycBounds.west + ((0 : ℕ) : ℚ) * ((nycBounds.east - nycBounds.west) / ((2 : ℕ) : ℚ))) :=
  ⟨(c3_grid_layout idFloatModel nycBounds 2 []).1,
   (c3_grid_layout idFloatModel nycBounds 2 []).2 1 0 (by decide) (by decide)⟩

theorem jsub_fin (a b : ℚ) : jsub (JSNum.fin a) (JSNum.fin b) = JSNum.fin (a - b) := by
  show JSNum.fin (a + -b) = JSNum.fin (a - b)
  rw [sub_eq_add_neg]

theorem jmul_fin (a b : ℚ) : jmul (JSNum.fin a) (JSNum.fin b) = JSNum.fin (a * b) := rfl

theorem jadd_fin (a b : ℚ) : jadd (JSNum.fin a) (JSNum.fin b) = JSNum.fin (a + b) := rfl

/-- The fast planar distance of two finite points is a nonnegative finite
number, for any Math.sqrt satisfying its contract. -/
theorem calculateFastDistance_fin (m : FloatModel) (hs : SqrtSpec m)
    (lat1 lng1 lat2 lng2 : ℚ) :
    ∃ r : ℚ, 0 ≤ r ∧ calculateFastDistance m (JSNum.fin lat1) (JSNum.fin lng1)
        (JSNum.fin lat2) (JSNum.fin lng2) = JSNum.fin r := by
  have hq : (0 : ℚ) ≤ (lat2 - lat1) * 111000 * ((lat2 - lat1) * 111000) +
      (lng2 - lng1) * 85000 * ((lng2 - lng1) * 85000) :=
    add_nonneg (mul_self_nonneg _) (mul_self_nonneg _)
  obtain ⟨r, hr0, hr⟩ := hs _ hq
  refine ⟨r, hr0, ?_⟩
  simp only [calculateFastDistance, jsub_fin, jmul_fin, jadd_fin]
  exact hr

/-- A scan accumulator value: Infinity or a nonnegative finite number. -/
def NonnegOrInf (x : JSNum) : Prop :=
  x = JSNum.inf ∨ ∃ q : ℚ, 0 ≤ q ∧ x = JSNum.fin q

/-- The minimum-distance fold keeps its accumulator Infinity-or-nonnegative
when every scanned coordinate pair is finite. -/
theorem scanFoldl_nonnegOrInf (m : FloatModel) (hs : SqrtSpec m) (lat lng : ℚ) :
    ∀ (coords : List (JSNum × JSNum)) (acc : JSNum),
      (∀ c ∈ coords, ∃ a bq : ℚ, c = (JSNum.fin a, JSNum.fin bq)) →
      NonnegOrInf acc →
      NonnegOrInf (coords.foldl
        (fun minDistance c =>
          let d := calculateFastDistance m (JSNum.fin lat) (JSNum.fin lng) c.2 c.1
          if jlt d minDistance then d else minDistance) acc) := by
  intro coords
  induction coords with
  | nil => intro acc _ hacc; simpa using hacc
  | cons c cs ih =>
      intro acc hc hacc
      rw [List.foldl_cons]
      apply ih
      · intro x hx
        exact hc x (List.mem_cons_of_mem c hx)
      · obtain ⟨a, bq, rfl⟩ := hc c (List.mem_cons_self c cs)
        obtain ⟨r, hr0, hrd⟩ := calculateFastDistance_fin m hs lat lng bq a
        simp only [hrd]
        by_cases hlt : jlt (JSNum.fin r) acc = true
        · rw [if_pos hlt]
          exact Or.inr ⟨r, hr0, rfl⟩
        · rw [if_neg hlt]
          exact hacc

/-- The minimum distance over finitely-placed records is Infinity (no
records) or nonnegative finite. -/
theorem minDistanceScan_nonnegOrInf (m : FloatModel) (hs : SqrtSpec m) (lat lng : ℚ)
    (coords : List (JSNum × JSNum))
    (hc : ∀ c ∈ coords, ∃ a bq : ℚ, c = (JSNum.fin a, JSNum.fin bq)) :
    NonnegOrInf (minDistanceScan m lat lng coords) :=
  scanFoldl_nonnegOrInf m hs lat lng coords JSNum.inf hc (Or.inl rfl)

theorem jdiv_inf_1000 : jdiv JSNum.inf (JSNum.fin 1000) = JSNum.inf := by
  show (if (0 : ℚ) ≤ 1000 then JSNum.inf else JSNum.ninf) = JSNum.inf
  norm_num

theorem jmin_inf_one : jmin JSNum.inf (JSNum.fin 1) = JSNum.fin 1 := rfl

theorem jdiv_fin_1000 (d : ℚ) :
    jdiv (JSNum.fin d) (JSNum.fin 1000) = JSNum.fin (d / 1000) := by
  simp only [jdiv]
  norm_num

theorem jmin_fin (a b : ℚ) : jmin (JSNum.fin a) (JSNum.fin b) = JSNum.fin (min a b) := by
  show (if jlt (JSNum.fin b) (JSNum.fin a) then JSNum.fin b else JSNum.fin a) =
    JSNum.fin (min a b)
  by_cases h : b < a
  · rw [if_pos (by simpa [jlt] using h), min_eq_right h.le]
  · rw [if_neg (by simpa [jlt] using h), min_eq_left (le_of_not_lt h)]

/-- The intensity computation maps an Infinity-or-nonnegative minimum
distance into the unit interval, for any Math.pow(x, 0.6) satisfying its
contract. -/
theorem intensity_bounds (m : FloatModel) (hp : PowUnitSpec m) (x : JSNum)
    (hx : NonnegOrInf x) :
    ∃ q : ℚ, 0 ≤ q ∧ q ≤ 1 ∧
      m.pow06 (jmin (jdiv x (JSNum.fin 1000)) (JSNum.fin 1)) = JSNum.fin q := by
  rcases hx with rfl | ⟨d, hd0, rfl⟩
  · rw [jdiv_inf_1000, jmin_inf_one]
    exact hp 1 (by norm_num) (by norm_num)
  · rw [jdiv_fin_1000, jmin_fin]
    exact hp (min (d / 1000) 1)
      (le_min (div_nonneg hd0 (by norm_num)) zero_le_one) (min_le_right _ _)

/-- C5: every generated cell's intensity is a finite value in [0, 1],
whenever all records have finite coordinates (covering the zero-distance,
beyond-cutoff, and no-record/Infinity cases). -/
theorem c5_intensity_bounded (m : FloatModel) (hs : SqrtSpec m) (hp : PowUnitSpec m)
    (b : Bounds) (N : ℕ) (coords : List (JSNum × JSNum))
    (hc : ∀ c ∈ coords, ∃ a bq : ℚ, c = (JSNum.fin a, JSNum.fin bq)) :
    ∀ cell ∈ coverageCells m b N coords,
      ∃ q : ℚ, 0 ≤ q ∧ q ≤ 1 ∧ cell.intensity = JSNum.fin q := by
  intro cell hcell
  rw [coverageCells_eq] at hcell
  rcases List.mem_flatMap.1 hcell with ⟨i, _, hcell2⟩
  rcases List.mem_map.1 hcell2 with ⟨j, _, rfl⟩
  exact intensity_bounds m hp _ (minDistanceScan_nonnegOrInf m hs _ _ coords hc)

/-- A simple integer bounds box used by witnesses. -/
def unitBounds : Bounds := { north := 1, south := 0, east := 1, west := 0 }

/-- Concrete evaluation of a 1 x 1 grid over the unit box with a single
facility at longitude 2, latitude 3 (planar distance far beyond the 1 km
cutoff, so the single cell saturates at intensity 1). -/
theorem unitGrid_eval :
    coverageCells idFloatModel unitBounds 1 [(JSNum.fin 2, JSNum.fin 3)] =
      [Cell.mk 0 0 (JSNum.fin 1)] := by
  have h1 : minDistanceScan idFloatModel 0 0 [(JSNum.fin 2, JSNum.fin 3)] =
      JSNum.fin 139789000000 := by
    simp only [minDistanceScan, List.foldl_cons, List.foldl_nil, calculateFastDistance,
      jsub_fin, jmul_fin, jadd_fin, idFloatModel, jlt]
    norm_num
  have h2 : jdiv (JSNum.fin 139789000000) (JSNum.fin 1000) = JSNum.fin 139789000 := by
    rw [jdiv_fin_1000]
    norm_num
  have h3 : jmin (JSNum.fin 139789000) (JSNum.fin 1) = JSNum.fin 1 := by
    rw [jmin_fin, min_eq_right (by norm_num)]
  rw [coverageCells_eq]
  simp only [List.range_succ, List.range_zero, List.nil_append, List.flatMap_cons,
    List.flatMap_nil, List.map_cons, List.map_nil, List.append_nil]
  norm_num [unitBounds]
  rw [h1, h2, h3]
  rfl

theorem c5_intensity_bounded_witness :
    ∃ q : ℚ, 0 ≤ q ∧ q ≤ 1 ∧
      (Cell.mk 0 0 (JSNum.fin 1)).intensity = JSNum.fin q :=
  c5_intensity_bounded idFloatModel
    (fun q hq => ⟨q, hq, rfl⟩)
    (fun q h0 h1 => ⟨q, h0, h1, rfl⟩)
    unitBounds 1 [(JSNum.fin 2, JSNum.fin 3)]
    (fun c hcmem => ⟨2, 3, by simpa using hcmem⟩)
    (Cell.mk 0 0 (JSNum.fin 1)) (unitGrid_eval ▸ List.mem_singleton.2 rfl)

/-- C6: with a populated but empty facility store, generateCoverageHeatmap
does not fail: it returns the full 100 x 100 = 10000-cell grid and every
cell's intensity equals 1 (Infinity/1000 = Infinity, Math.min(Infinity, 1)
= 1, Math.pow(1, 0.6) = 1), with no NaN anywhere. -/
theorem c6_empty_store (m : FloatModel) (hp1 : PowOneSpec m) (s : AppState)
    (h : s.allRestroomData = some ⟨[]⟩) :
    generateCoverageHeatmap m s =
        some (JSOutcome.value (coverageCells m nycBounds gridSize [])) ∧
    (coverageCells m nycBounds gridSize []).length = 10000 ∧
    ∀ cell ∈ coverageCells m nycBounds gridSize [], cell.intensity = JSNum.fin 1 := by
  refine ⟨?_, ?_, ?_⟩
  · simp [generateCoverageHeatmap, h]
  · rw [coverageCells_eq, flatMapGridLength]
    rfl
  · intro cell hcell
    rw [coverageCells_eq] at hcell
    rcases List.mem_flatMap.1 hcell with ⟨i, _, hcell2⟩
    rcases List.mem_map.1 hcell2 with ⟨j, _, rfl⟩
    have hmds : ∀ la ln : ℚ, minDistanceScan m la ln [] = JSNum.inf := fun _ _ => rfl
    show m.pow06 (jmin (jdiv (minDistanceScan m _ _ []) (JSNum.fin 1000)) (JSNum.fin 1)) =
      JSNum.fin 1
    rw [hmds, jdiv_inf_1000, jmin_inf_one, hp1]

/-- The loaded-but-empty application state used by the C6 witness. -/
def emptyStoreState : AppState := { demoState with allRestroomData := some ⟨[]⟩ }

theorem c6_empty_store_witness :
    generateCoverageHeatmap idFloatModel emptyStoreState =
        some (JSOutcome.value (coverageCells idFloatModel nycBounds gridSize [])) ∧
    (coverageCells idFloatModel nycBounds gridSize []).length = 10000 ∧
    ∀ cell ∈ coverageCells idFloatModel nycBounds gridSize [],
      cell.intensity = JSNum.fin 1 :=
  c6_empty_store idFloatModel rfl emptyStoreState rfl

/-- A record whose GeoJSON coordinate pair is null (the C2 failing input's
invalid record). -/
def nullCoordRecord : FacilityRecord :=
  { facility_name := some ("Broken".toList)
    operator := none
    location_type := none
    status := none
    accessibility := none
    coordinates := none }

/-- The C2 failing input: a loaded store holding one valid record and one
record whose coordinates are null. -/
def nullCoordState : AppState :=
  { demoState with allRestroomData := some ⟨[demoRecord, nullCoordRecord]⟩ }

/-- C2 evaluated at the failing input: the source never excludes invalid
coordinate entries, and a null (or missing) coordinate pair makes the
first grid cell's scan throw a TypeError at the destructuring
[rLng, rLat] = coords, so generateCoverageHeatmap throws instead of
ignoring the invalid record.  (Non-finite numeric coordinates happen not
to poison the minimum only because a NaN or Infinity distance never wins
the strict less-than comparison.) -/
theorem c2_null_coordinates_throw :
    generateCoverageHeatmap idFloatModel nullCoordState = some JSOutcome.thrown := by
  decide

/-- C9: starting from any loaded state (all coordinate pairs non-null)
with an empty cache, hidden heatmap and enabled button: the first toggle
runs the grid scan exactly once and caches its result, and after every
number of further toggles — on or off — the cached grid is still that same
value and the scan count is still one, i.e. the grid is never recomputed;
moreover a toggle in any visible enabled state only clears the visibility
flag and changes nothing else (toggle-off only removes the layer from
display). -/
theorem c9_compute_once (m : FloatModel) (s0 : AppState) (data : RestroomData)
    (h1 : s0.allRestroomData = some data)
    (h2 : ∀ r ∈ data.features, r.coordinates ≠ none)
    (h3 : s0.heatmapData = none) (h4 : s0.isHeatmapVisible = false)
    (h5 : s0.buttonDisabled = false) :
    (∀ k : ℕ,
      ((toggleHeatmap m)^[k + 1] s0).heatmapData =
          some (coverageCells m nycBounds gridSize
            ((data.features.map (fun r => r.coordinates)).filterMap id)) ∧
      ((toggleHeatmap m)^[k + 1] s0).computeCount = s0.computeCount + 1 ∧
      ((toggleHeatmap m)^[k + 1] s0).buttonDisabled = false) ∧
    (∀ s : AppState, s.buttonDisabled = false → s.isHeatmapVisible = true →
      toggleHeatmap m s = { s with isHeatmapVisible := false }) := by
  have hgen : generateCoverageHeatmap m s0 =
      some (JSOutcome.value (coverageCells m nycBounds gridSize
        ((data.features.map (fun r => r.coordinates)).filterMap id))) := by
    have hnm : ¬ (0 < gridSize ∧ none ∈ data.features.map (fun r => r.coordinates)) := by
      rintro ⟨-, hmem⟩
      rcases List.mem_map.1 hmem with ⟨r, hr, hrc⟩
      exact h2 r hr hrc
    simp only [generateCoverageHeatmap, h1]
    rw [if_neg hnm]
  have hoff : ∀ s : AppState, s.buttonDisabled = false → s.isHeatmapVisible = true →
      toggleHeatmap m s = { s with isHeatmapVisible := false } := by
    intro s hb hv
    unfold toggleHeatmap
    rw [hb, hv]
    simp
  have hstep1 : toggleHeatmap m s0 =
      { s0 with
          heatmapData := some (coverageCells m nycBounds gridSize
            ((data.features.map (fun r => r.coordinates)).filterMap id)),
          isHeatmapVisible := true,
          computeCount := s0.computeCount + 1 } := by
    unfold toggleHeatmap
    rw [h5, h4, h3, hgen]
    simp
  have hpres : ∀ (s : AppState) (g : List Cell), s.buttonDisabled = false →
      s.heatmapData = some g →
      (toggleHeatmap m s).heatmapData = some g ∧
      (toggleHeatmap m s).computeCount = s.computeCount ∧
      (toggleHeatmap m s).buttonDisabled = false := by
    intro s g hb hd
    unfold toggleHeatmap
    rw [hb, hd]
    by_cases hv : s.isHeatmapVisible = true
    · simp [hv, hd, hb]
    · simp [hv, hd, hb]
  refine ⟨?_, hoff⟩
  intro k
  induction k with
  | zero =>
      have h01 : (toggleHeatmap m)^[0 + 1] s0 = toggleHeatmap m s0 := by
        simp [Function.iterate_one]
      rw [h01, hstep1]
      exact ⟨rfl, rfl, h5⟩
  | succ n ih =>
      have hsucc : (toggleHeatmap m)^[n + 1 + 1] s0 =
          toggleHeatmap m ((toggleHeatmap m)^[n + 1] s0) :=
        Function.iterate_succ_apply' (toggleHeatmap m) (n + 1) s0
      obtain ⟨ihd, ihc, ihb⟩ := ih
      obtain ⟨pd, pc, pb⟩ := hpres _ _ ihb ihd
      rw [hsucc]
      exact ⟨pd, pc.trans ihc, pb⟩

theorem c9_compute_once_witness :
    ((toggleHeatmap idFloatModel)^[3] demoState).heatmapData =
        some (coverageCells idFloatModel nycBounds gridSize
          (([demoRecord].map (fun r => r.coordinates)).filterMap id)) ∧
    ((toggleHeatmap idFloatModel)^[3] demoState).computeCount =
      demoState.computeCount + 1 :=
  have h := c9_compute_once idFloatModel demoState ⟨[demoRecord]⟩ rfl
    (by decide) rfl rfl rfl
  ⟨(h.1 2).1, (h.1 2).2.1⟩
